import Mathlib

/-!
Shallow embedding of the GPS NMEA sentence framer/decoder (src/GPS.c, src/GPS.h).

Build configuration embedded here is the default of src/GPS.h:
GPS_GPGGA_ENABLED = 0, GPS_GPRMC_ENABLED = 1, GPS_GPVTG_ENABLED = 0,
GPS_GPZDA_ENABLED = 0, GPS_BUFFER_SIZE = 512, GPS_MS_BEFORE_CHECK = 50.
Hence `GPS_Process` runs exactly one decoder, `GPS_Process_GPRMC`.
`GPS_Process_GPGGA` is additionally embedded standalone, from the source text
of GPS.c lines 201-301 (it is compiled out in the default configuration).

Modelling conventions:
- C `uint8_t` bytes are `Nat` values (reduced mod 256 where the hardware
  register would truncate); `float`/`double` are modelled as `ℚ` (the claims
  concern the arithmetic structure of the conversions, not rounding).
- The POSIX regexec calls are modelled by deterministic parsers that
  recognise exactly the language of the (anchorless) patterns
  GPS_GPRMC_REGEX_STRING / GPS_GPGGA_REGEX_STRING, scanning for the
  leftmost match as regexec does.  Every sub-pattern is a character class
  disjoint from its delimiter, so greedy left-to-right parsing coincides
  with POSIX leftmost-longest matching and capture disambiguation.
- Captures are stored by content.  The C code reads each numeric capture
  with atoll/atoi/atof starting at rm_so of the whole buffer; because each
  capture is a maximal run of its character class followed by a delimiter
  (',' or '*' or '.'), the C library call stops exactly at the capture end,
  so applying the conversion to the capture content is exact.  For the
  optional single-letter captures the C code reads the single byte at
  rm_so, which is the captured letter, or the following delimiter when the
  capture is empty; this is modelled by `Option.getD` with that delimiter.
-/

/-- GPS_BUFFER_SIZE (src/GPS.h line 27, default). -/
def GPS_BUFFER_SIZE : Nat := 512

/-- GPS_MS_BEFORE_CHECK (src/GPS.h line 31, default).  Defined by the header
but never referenced by src/GPS.c. -/
def GPS_MS_BEFORE_CHECK : Nat := 50

/-- Maximal prefix of decimal digits, and the rest (the `[[:digit:]]*`
sub-pattern). -/
def spanDigits : List Char → List Char × List Char
  | [] => ([], [])
  | c :: cs =>
    if c.isDigit then
      match spanDigits cs with
      | (ds, rest) => (c :: ds, rest)
    else ([], c :: cs)

/-- The `\.?` sub-pattern: consume one dot when present (greedy, which is
forced here: skipping a present dot always fails on the following comma). -/
def dropDot : List Char → List Char
  | '.' :: r => r
  | s => s

/-- The `[[:digit:]]*\.?[[:digit:]]*` sub-pattern (one capture). -/
def spanNumber (s : List Char) : List Char × List Char :=
  match spanDigits s with
  | (d1, '.' :: r2) =>
    match spanDigits r2 with
    | (d2, rest) => (d1 ++ '.' :: d2, rest)
  | p1 => p1

/-- The `-?[[:digit:]]*\.?[[:digit:]]*` sub-pattern (GPGGA altitude and
geoidal separation). -/
def spanSignedNumber (s : List Char) : List Char × List Char :=
  match s with
  | '-' :: r =>
    match spanNumber r with
    | (n, rest) => ('-' :: n, rest)
  | _ => spanNumber s

/-- Require one literal character (the delimiters `,` and `*` of the
patterns). -/
def expectChar (c : Char) : List Char → Option (List Char)
  | [] => none
  | x :: xs => if x = c then some xs else none

/-- An optional single-character capture over an allowed set, e.g. `[NS]?`.
Greedy, which is forced: the allowed sets never contain the delimiter. -/
def optCode (allow : List Char) : List Char → Option Char × List Char
  | [] => (none, [])
  | c :: cs => if c ∈ allow then (some c, cs) else (none, c :: cs)

/-- The `[[:digit:]]?` sub-pattern (GPGGA quality indicator). -/
def optDigitSpan : List Char → Option Char × List Char
  | [] => (none, [])
  | c :: cs => if c.isDigit then (some c, cs) else (none, c :: cs)

/-- The `[[:digit:]]{2}` sub-pattern (GPGGA satellite count). -/
def twoDigitsSpan : List Char → Option (List Char × List Char)
  | a :: b :: r => if a.isDigit && b.isDigit then some ([a, b], r) else none
  | _ => none

/-- One `[[:digit:]]*\.?[[:digit:]]*,` field: the capture and the input
after the mandatory comma. -/
def numField (s : List Char) : Option (List Char × List Char) :=
  match spanNumber s with
  | (g, r) =>
    match expectChar ',' r with
    | some r2 => some (g, r2)
    | none => none

/-- One `-?[[:digit:]]*\.?[[:digit:]]*,` field. -/
def signedNumField (s : List Char) : Option (List Char × List Char) :=
  match spanSignedNumber s with
  | (g, r) =>
    match expectChar ',' r with
    | some r2 => some (g, r2)
    | none => none

/-- One `[[:digit:]]*,` field. -/
def digitsField (s : List Char) : Option (List Char × List Char) :=
  match spanDigits s with
  | (g, r) =>
    match expectChar ',' r with
    | some r2 => some (g, r2)
    | none => none

/-- One `[XY..]?,` field. -/
def codeField (allow : List Char) (s : List Char) :
    Option (Option Char × List Char) :=
  match optCode allow s with
  | (g, r) =>
    match expectChar ',' r with
    | some r2 => some (g, r2)
    | none => none

/-- Numeric value of a digit list (most significant first). -/
def digitsToNat (s : List Char) : Nat :=
  s.foldl (fun a c => a * 10 + (c.toNat - '0'.toNat)) 0

/-- C `atoll`/`atol`/`atoi` on the texts that occur here: the value of the
leading run of digits (the captures carry no sign or whitespace; machine
integer width is not modelled, no claim exercises it). -/
def atoll (s : List Char) : Nat := digitsToNat (spanDigits s).1

/-- C `atof`/`atoff` on an unsigned decimal text: leading digits, then an
optional dot and fraction digits. -/
def atoffPos (s : List Char) : ℚ :=
  match spanDigits s with
  | (d1, '.' :: r2) =>
    match spanDigits r2 with
    | (d2, _) => (digitsToNat d1 : ℚ) + (digitsToNat d2 : ℚ) / (10 ^ d2.length)
  | (d1, _) => (digitsToNat d1 : ℚ)

/-- C `atof`/`atoff`, with the optional leading minus of the GPGGA
altitude/geoidal-separation fields. -/
def atoff (s : List Char) : ℚ :=
  match s with
  | '-' :: r => -(atoffPos r)
  | _ => atoffPos s

/-- C truncation toward zero, as in the cast `(int)(deg_min / 100)` and in
`fmod`.  Stated on the numerator so that the test and the floor/ceiling
evaluate inside the kernel. -/
def ratTrunc (x : ℚ) : ℤ := if 0 ≤ x.num then x.floor else x.ceil

/-- C `fmod x y` for positive `y`: `x - y * trunc (x / y)`. -/
def fmodQ (x y : ℚ) : ℚ := x - y * (ratTrunc (x / y) : ℚ)

/-- src/GPS.c lines 95-113.  `float`/`double` arithmetic modelled exactly
over ℚ. -/
def convertDegMinToDecDeg (deg_min : ℚ) (is_negative : Bool) : ℚ :=
  let mins := fmodQ deg_min 100
  let whole : ℚ := (ratTrunc (deg_min / 100) : ℚ)
  let dec_deg := whole + mins / 60
  if is_negative then -dec_deg else dec_deg

/-- C `memcpy(dst, src, src_len)` into a fixed char array: the first
`src.length` cells are replaced, the rest keep their old contents.  (For a
source longer than the destination the C code would overflow the array;
no grammar field exercised by the claims can do so for the 2-byte checksum
slot, and the station slot is not the object of any claim.) -/
def memcpyList (dst src : List Char) : List Char := src ++ dst.drop src.length

/-- The thirteen body captures (groups 1-13) of GPS_GPRMC_REGEX_STRING
(src/GPS.c lines 41-57), by content; optional single-letter captures as
`Option Char`. -/
structure GPRMCBody where
  time : List Char
  frac : List Char
  warn : Option Char
  lat : List Char
  latNS : Option Char
  lon : List Char
  lonEW : Option Char
  speed : List Char
  course : List Char
  date : List Char
  var : List Char
  varEW : Option Char
  mode : Option Char
  deriving Repr, DecidableEq

/-- All fourteen captures of GPS_GPRMC_REGEX_STRING: the body plus the
two-character checksum token (group 14). -/
structure GPRMCCaps where
  body : GPRMCBody
  check : List Char
  deriving Repr, DecidableEq

/-- Groups 1-7 of GPS_GPRMC_REGEX_STRING against a buffer suffix (the part
after the literal tag). -/
def parseGPRMCFront (s0 : List Char) :
    Option ((List Char × List Char × Option Char × List Char × Option Char ×
             List Char × Option Char) × List Char) := do
  let (g1, r1) := spanDigits s0               --  1) time hhmmss
  let s1 := dropDot r1                        --     \.?
  let (g2, s2) ← digitsField s1               --  2) fractional seconds
  let (g3, s3) ← codeField ['A', 'V'] s2      --  3) warning
  let (g4, s4) ← numField s3                  --  4) latitude
  let (g5, s5) ← codeField ['N', 'S'] s4      --  5) latitude N/S
  let (g6, s6) ← numField s5                  --  6) longitude
  let (g7, s7) ← codeField ['E', 'W'] s6      --  7) longitude E/W
  some ((g1, g2, g3, g4, g5, g6, g7), s7)

/-- Groups 8-13 of the GPRMC pattern. -/
def parseGPRMCTail (s7 : List Char) :
    Option ((List Char × List Char × List Char × List Char × Option Char ×
             Option Char) × List Char) := do
  let (g8, s8) ← numField s7                  --  8) speed over ground
  let (g9, s9) ← numField s8                  --  9) course over ground
  let (g10, s10) ← digitsField s9             -- 10) date ddmmyy
  let (g11, s11) ← numField s10               -- 11) magnetic variation
  let (g12, s12) ← codeField ['E', 'W'] s11   -- 12) magnetic variation E/W
  let (g13, r13) := optCode ['N', 'A', 'D', 'E'] s12 -- 13) mode
  some ((g8, g9, g10, g11, g12, g13), r13)

/-- Match of groups 1-13 of GPS_GPRMC_REGEX_STRING against a buffer suffix
(the part after the literal tag), returning the captures and the rest of
the input at the point where `\*` must appear. -/
def parseGPRMCBody (s0 : List Char) : Option (GPRMCBody × List Char) := do
  let ((g1, g2, g3, g4, g5, g6, g7), s7) ← parseGPRMCFront s0
  let ((g8, g9, g10, g11, g12, g13), r13) ← parseGPRMCTail s7
  some (⟨g1, g2, g3, g4, g5, g6, g7, g8, g9, g10, g11, g12, g13⟩, r13)

/-- Match of the full GPS_GPRMC_REGEX_STRING at one buffer position (the
position right after the literal `$GPRMC,`): the body, then `\*` and the
two-alphanumeric-character checksum token; trailing input is ignored, as a
regexec match may end before the end of the subject string. -/
def parseGPRMCAt (s : List Char) : Option GPRMCCaps := do
  let (b, rest) ← parseGPRMCBody s
  match rest with
  | '*' :: c1 :: c2 :: _ =>
    if c1.isAlphanum && c2.isAlphanum then some ⟨b, [c1, c2]⟩ else none
  | _ => none

/-- Literal-prefix test for the sentence tags. -/
def matchesTag : List Char → List Char → Bool
  | [], _ => true
  | _ :: _, [] => false
  | t :: ts, c :: cs => t = c && matchesTag ts cs

/-- `regexec` over the whole buffer: the pattern starts with the literal
`\$GPRMC,`, so a match can only start at an occurrence of that literal;
regexec reports the leftmost position at which the rest of the pattern
also matches. -/
def findGPRMC : List Char → Option GPRMCCaps
  | [] => none
  | c :: cs =>
    if matchesTag ['$', 'G', 'P', 'R', 'M', 'C', ','] (c :: cs) then
      match parseGPRMCAt (List.drop 7 (c :: cs)) with
      | some m => some m
      | none => findGPRMC cs
    else findGPRMC cs

/-- The GPRMC record, GPRMC_t (src/GPS.h lines 111-140).  `lat_valid` and
`lon_valid` are assigned by src/GPS.c lines 347 and 356 although GPRMC_t as
declared in src/GPS.h lacks them (the spec's §3 per-field validity flags);
they are modelled as record fields receiving those assignments. -/
structure GPRMC where
  updated_ms : Nat
  utc_h : Nat
  utc_m : Nat
  utc_s : Nat
  utc_s_frac : Nat
  nav_warn : Char
  lat_valid : Bool
  lat : ℚ
  lon_valid : Bool
  lon : ℚ
  speed_kt : ℚ
  course_t : ℚ
  utc_day : Nat
  utc_mon : Nat
  utc_year : Nat
  var : ℚ
  var_c : Char
  mode : Char
  check : List Char
  deriving Repr, DecidableEq

/-- The field walk of GPS_Process_GPRMC on a successful match (src/GPS.c
lines 316-400), write for write in source order.  Conditional single-letter
stores are per-field `if`s; an absent optional capture makes the C code
read the delimiter byte at rm_so (',' for groups 3, 5, 7, 12 and '*' for
group 13). -/
def mkGPRMCRecord (c : GPRMCCaps) (old : GPRMC) (current_ms : Nat) : GPRMC :=
  let b := c.body
  let r := { old with updated_ms := current_ms }
  --  1) Time hours, minutes, and seconds (combined)
  let hms := atoll b.time
  let r := { r with utc_h := hms / 10000 % 100
                    utc_m := hms / 100 % 100
                    utc_s := hms / 1 % 100 }
  --  2) Time fractional seconds: the source stores atoi of this capture
  --     into speed_kt (line 335); utc_s_frac is never assigned.
  let r := { r with speed_kt := (atoll b.frac : ℚ) }
  --  3) Warning A/V
  let w := b.warn.getD ','
  let r := { r with nav_warn := if w = 'A' ∨ w = 'V' then w else r.nav_warn }
  --  4) Latitude  5) Latitude N/S
  let r := { r with lat_valid := decide (b.lat ≠ [])
                    lat := convertDegMinToDecDeg (atoff b.lat)
                             (b.latNS.getD ',' == 'S') }
  --  6) Longitude  7) Longitude E/W
  let r := { r with lon_valid := decide (b.lon ≠ [])
                    lon := convertDegMinToDecDeg (atoff b.lon)
                             (b.lonEW.getD ',' == 'W') }
  --  8) Speed over ground (knots)
  let r := { r with speed_kt := atoff b.speed }
  --  9) Course over ground (degrees true)
  let r := { r with course_t := atoff b.course }
  -- 10) Time day, month, year (combined)
  let dmy := atoll b.date
  let r := { r with utc_day := dmy / 10000 % 100
                    utc_mon := dmy / 100 % 100
                    utc_year := dmy / 1 % 100 + 2000 }
  -- 11) Magnetic variation degrees
  let r := { r with var := atoff b.var }
  -- 12) Magnetic variation E/W
  let vc := b.varEW.getD ','
  let r := { r with var_c := if vc = 'E' ∨ vc = 'W' then vc else r.var_c }
  -- 13) Mode
  let md := b.mode.getD '*'
  let r := { r with mode := if md = 'N' ∨ md = 'A' ∨ md = 'D' ∨ md = 'E'
                            then md else r.mode }
  -- 14) Checksum
  let r := { r with check := memcpyList r.check c.check }
  r

/-- GPS_Process_GPRMC (src/GPS.c lines 305-403): run the regex over the
buffer string; on a match (regexec result 0) perform the field walk, else
leave the record alone; return the new record and the regexec result
(REG_NOMATCH modelled as 1). -/
def GPS_Process_GPRMC (string : List Char) (old : GPRMC) (current_ms : Nat) :
    GPRMC × Nat :=
  match findGPRMC string with
  | some c => (mkGPRMCRecord c old current_ms, 0)
  | none => (old, 1)

/-- The fifteen body captures (groups 1-15) of GPS_GPGGA_REGEX_STRING
(src/GPS.c lines 17-35), by content. -/
structure GPGGABody where
  time : List Char
  frac : List Char
  lat : List Char
  latNS : Option Char
  lon : List Char
  lonEW : Option Char
  qual : Option Char
  sats : List Char
  hdop : List Char
  alt : List Char
  altUnit : Option Char
  geo : List Char
  geoUnit : Option Char
  age : List Char
  station : List Char
  deriving Repr, DecidableEq

/-- All sixteen captures of GPS_GPGGA_REGEX_STRING: the body plus the
two-character checksum token (group 16). -/
structure GPGGACaps where
  body : GPGGABody
  check : List Char
  deriving Repr, DecidableEq

/-- One `[[:digit:]]?,` field (GPGGA quality indicator). -/
def optDigitField (s : List Char) : Option (Option Char × List Char) :=
  match optDigitSpan s with
  | (g, r) =>
    match expectChar ',' r with
    | some r2 => some (g, r2)
    | none => none

/-- One `[[:digit:]]{2},` field (GPGGA satellite count). -/
def twoDigitsField (s : List Char) : Option (List Char × List Char) :=
  match twoDigitsSpan s with
  | some (g, r) =>
    match expectChar ',' r with
    | some r2 => some (g, r2)
    | none => none
  | none => none

/-- Groups 1-8 of the GPGGA pattern. -/
def parseGPGGAFront (s0 : List Char) :
    Option ((List Char × List Char × List Char × Option Char × List Char ×
             Option Char × Option Char × List Char) × List Char) := do
  let (g1, r1) := spanDigits s0               --  1) time hhmmss
  let s1 := dropDot r1                        --     \.?
  let (g2, s2) ← digitsField s1               --  2) time microseconds
  let (g3, s3) ← numField s2                  --  3) latitude
  let (g4, s4) ← codeField ['N', 'S'] s3      --  4) latitude N/S
  let (g5, s5) ← numField s4                  --  5) longitude
  let (g6, s6) ← codeField ['E', 'W'] s5      --  6) longitude E/W
  let (g7, s7) ← optDigitField s6             --  7) quality indicator
  let (g8, s8) ← twoDigitsField s7            --  8) number of satellites
  some ((g1, g2, g3, g4, g5, g6, g7, g8), s8)

/-- Groups 9-15 of the GPGGA pattern. -/
def parseGPGGATail (s8 : List Char) :
    Option ((List Char × List Char × Option Char × List Char × Option Char ×
             List Char × List Char) × List Char) := do
  let (g9, s9) ← numField s8                  --  9) HDOP
  let (g10, s10) ← signedNumField s9          -- 10) antenna altitude
  let (g11, s11) ← codeField ['M', 'F'] s10   -- 11) altitude units
  let (g12, s12) ← signedNumField s11         -- 12) geoidal separation
  let (g13, s13) ← codeField ['M', 'F'] s12   -- 13) geoidal separation units
  let (g14, s14) ← numField s13               -- 14) age of correction
  let (g15, r15) := spanDigits s14            -- 15) correction station ID
  some ((g9, g10, g11, g12, g13, g14, g15), r15)

/-- Match of groups 1-15 of GPS_GPGGA_REGEX_STRING against a buffer suffix
(the part after the literal tag). -/
def parseGPGGABody (s0 : List Char) : Option (GPGGABody × List Char) := do
  let ((g1, g2, g3, g4, g5, g6, g7, g8), s8) ← parseGPGGAFront s0
  let ((g9, g10, g11, g12, g13, g14, g15), r15) ← parseGPGGATail s8
  some (⟨g1, g2, g3, g4, g5, g6, g7, g8, g9, g10,
         g11, g12, g13, g14, g15⟩, r15)

/-- Match of the full GPS_GPGGA_REGEX_STRING at one buffer position. -/
def parseGPGGAAt (s : List Char) : Option GPGGACaps := do
  let (b, rest) ← parseGPGGABody s
  match rest with
  | '*' :: c1 :: c2 :: _ =>
    if c1.isAlphanum && c2.isAlphanum then some ⟨b, [c1, c2]⟩ else none
  | _ => none

/-- `regexec` with the GPGGA pattern: leftmost occurrence of the literal
`\$GPGGA,` at which the rest of the pattern matches. -/
def findGPGGA : List Char → Option GPGGACaps
  | [] => none
  | c :: cs =>
    if matchesTag ['$', 'G', 'P', 'G', 'G', 'A', ','] (c :: cs) then
      match parseGPGGAAt (List.drop 7 (c :: cs)) with
      | some m => some m
      | none => findGPGGA cs
    else findGPGGA cs

/-- The GPGGA record, GPGGA_t (src/GPS.h lines 68-94).  `lat` and `lon` are
declared by the header but are never assigned by GPS_Process_GPGGA (see
`mkGPGGARecord`). -/
structure GPGGA where
  updated_ms : Nat
  utc_h : Nat
  utc_m : Nat
  utc_s : Nat
  utc_us : Nat
  lat : ℚ
  lon : ℚ
  quality : Nat
  num_sats : Nat
  hdop : ℚ
  alt : ℚ
  alt_unit : Char
  geo : ℚ
  geo_unit : Char
  aoc : Int
  station : List Char
  check : List Char
  deriving Repr, DecidableEq

/-- C conversion of a nonnegative `int` value to `int8_t` (the GPGGA age--
of-correction store), two's-complement wrap. -/
def wrap8 (n : Nat) : Int := ((n : Int) + 128) % 256 - 128

/-- The field walk of GPS_Process_GPGGA on a successful match (src/GPS.c
lines 212-298), write for write in source order.  Lines 235-249 of the
source store the latitude/longitude validity flags and converted values
through the identifier `gprmc`, which is not declared in this function
(when GPS_GPGGA_ENABLED is set the translation unit does not compile); the
only object of that name in the design is the GPRMC record of GPS_t, so the
walk is modelled as updating that record, and the GPGGA record's own
`lat`/`lon` fields are never assigned. -/
def mkGPGGARecord (c : GPGGACaps) (gpgga : GPGGA) (gprmc : GPRMC)
    (current_ms : Nat) : GPGGA × GPRMC :=
  let b := c.body
  let g := { gpgga with updated_ms := current_ms }
  --  1) Time hours, minutes, and seconds (combined)
  let hms := atoll b.time
  let g := { g with utc_h := hms / 10000 % 100
                    utc_m := hms / 100 % 100
                    utc_s := hms / 1 % 100 }
  --  2) Time microseconds (utc_us is uint16_t)
  let g := { g with utc_us := atoll b.frac % 65536 }
  --  3) Latitude  4) Latitude N/S  — written into the GPRMC record
  let m := { gprmc with lat_valid := decide (b.lat ≠ [])
                        lat := convertDegMinToDecDeg (atoff b.lat)
                                 (b.latNS.getD ',' == 'S') }
  --  5) Longitude  6) Longitude E/W  — written into the GPRMC record
  let m := { m with lon_valid := decide (b.lon ≠ [])
                    lon := convertDegMinToDecDeg (atoff b.lon)
                             (b.lonEW.getD ',' == 'W') }
  --  7) Quality indicator
  let g := { g with quality := atoll (match b.qual with
                                      | some d => [d]
                                      | none => []) }
  --  8) Number of satellites used
  let g := { g with num_sats := atoll b.sats }
  --  9) Horizontal dilution of precision
  let g := { g with hdop := atoff b.hdop }
  -- 10) Antenna altitude
  let g := { g with alt := atoff b.alt }
  -- 11) Antenna altitude units (M/F)
  let u := b.altUnit.getD ','
  let g := { g with alt_unit := if u = 'M' ∨ u = 'F' then u else g.alt_unit }
  -- 12) Geoidal separation
  let g := { g with geo := atoff b.geo }
  -- 13) Geoidal separation units (M/F)
  let v := b.geoUnit.getD ','
  let g := { g with geo_unit := if v = 'M' ∨ v = 'F' then v else g.geo_unit }
  -- 14) Age of correction (aoc is int8_t; atoi reads the leading digits)
  let g := { g with aoc := wrap8 (atoll b.age) }
  -- 15) Correction station ID
  let g := { g with station := memcpyList g.station b.station }
  -- 16) Checksum
  let g := { g with check := memcpyList g.check c.check }
  (g, m)

/-- GPS_Process_GPGGA (src/GPS.c lines 201-301), embedded standalone from
the source text (the default configuration compiles it out): regex match,
then the field walk; returns the two records it can touch and the regexec
result. -/
def GPS_Process_GPGGA (string : List Char) (gpgga : GPGGA) (gprmc : GPRMC)
    (current_ms : Nat) : GPGGA × GPRMC × Nat :=
  match findGPGGA string with
  | some c =>
    let p := mkGPGGARecord c gpgga gprmc current_ms
    (p.1, p.2, 0)
  | none => (gpgga, gprmc, 1)

/-- GPS_Buffer_t (src/GPS.h lines 47-54).  `chars` is the 512-byte array
(length `GPS_BUFFER_SIZE`, an invariant of every reachable state). -/
structure GPS_Buffer where
  updated_ms : Nat
  chars : List Nat
  char_interrupt : Nat
  next_index : Nat
  deriving Repr, DecidableEq

/-- GPS_t in the default configuration (src/GPS.h lines 220-247 with only
GPS_GPRMC_ENABLED): the ingest buffer and the GPRMC record.  The compiled
regex and the regmatch scratch array are call-local in the model. -/
structure GPS where
  buffer : GPS_Buffer
  gprmc : GPRMC
  deriving Repr, DecidableEq

/-- The GPRMC record zeroed by GPS_Init's memset. -/
def GPRMC.zero : GPRMC :=
  { updated_ms := 0, utc_h := 0, utc_m := 0, utc_s := 0, utc_s_frac := 0
    nav_warn := Char.ofNat 0, lat_valid := false, lat := 0
    lon_valid := false, lon := 0, speed_kt := 0, course_t := 0
    utc_day := 0, utc_mon := 0, utc_year := 0, var := 0
    var_c := Char.ofNat 0, mode := Char.ofNat 0
    check := [Char.ofNat 0, Char.ofNat 0] }

/-- GPS_Init (src/GPS.c lines 115-136): `memset(gps, 0, sizeof(GPS_t))`.
The regcomp and HAL calls are external I/O glue. -/
def GPS_Init : GPS :=
  { buffer := { updated_ms := 0, chars := List.replicate GPS_BUFFER_SIZE 0
                char_interrupt := 0, next_index := 0 }
    gprmc := GPRMC.zero }

/-- GPS_CallBack (src/GPS.c lines 138-157).  `tick` is the HAL_GetTick()
value; `b` is the byte the UART interrupt deposited in the uint8_t register
`char_interrupt` (hence reduced mod 256).  The timestamp is updated on
every call; the byte is stored and the cursor advanced only when it is not
the null terminator and the cursor is below `GPS_BUFFER_SIZE - 1`. -/
def GPS_CallBack (tick b : Nat) (gps : GPS) : GPS :=
  let byte := b % 256
  let buf : GPS_Buffer :=
    { gps.buffer with char_interrupt := byte, updated_ms := tick }
  let buf : GPS_Buffer :=
    if buf.char_interrupt ≠ 0 ∧ buf.next_index < GPS_BUFFER_SIZE - 1 then
      { buf with chars := buf.chars.set buf.next_index buf.char_interrupt
                 next_index := buf.next_index + 1 }
    else buf
  { gps with buffer := buf }

/-- The C string regexec sees: the buffer bytes up to the first null
terminator (every reachable state keeps cell `GPS_BUFFER_SIZE - 1` at zero,
so the array is always null-terminated). -/
def cString (chars : List Nat) : List Char :=
  (chars.takeWhile (fun b => b != 0)).map Char.ofNat

/-- GPS_Process (src/GPS.c lines 159-198) in the default configuration
(only GPS_GPRMC_ENABLED): preset `must_clear_buffer` from the capacity
test; when data is available run the GPRMC decoder and, if nothing failed
(`0 == result_bool`), force a clear; clearing zeroes the char array, resets
the cursor and stamps the buffer timestamp with `current_ms`.  There is no
idle-time test in the source. -/
def GPS_Process (current_ms : Nat) (gps : GPS) : GPS :=
  let pr := GPS_Process_GPRMC (cString gps.buffer.chars) gps.gprmc current_ms
  let gps1 := if 0 < gps.buffer.next_index then { gps with gprmc := pr.1 }
              else gps
  let must_clear := GPS_BUFFER_SIZE - 1 ≤ gps.buffer.next_index ∨
                    (0 < gps.buffer.next_index ∧ pr.2 = 0)
  if must_clear then
    { gps1 with buffer := { gps1.buffer with
                            chars := List.replicate GPS_BUFFER_SIZE 0
                            next_index := 0
                            updated_ms := current_ms } }
  else gps1

/-- The states of the system: GPS_Init, then any interleaving of byte
ingest callbacks and processing passes. -/
inductive Reachable : GPS → Prop
  | init : Reachable GPS_Init
  | callback (tick b : Nat) {s : GPS} : Reachable s →
      Reachable (GPS_CallBack tick b s)
  | process (current_ms : Nat) {s : GPS} : Reachable s →
      Reachable (GPS_Process current_ms s)

/-- Modelled from the spec (glossary "Checksum token", §6): the XOR checksum
of the sentence payload between `$` and `*`.  The source captures the
checksum token but never computes or compares this value. -/
def nmeaChecksum (payload : List Char) : Nat :=
  payload.foldl (fun a c => Nat.xor a c.toNat) 0

/-- Value of one hexadecimal digit of a checksum token. -/
def hexVal (c : Char) : Nat :=
  if c.isDigit then c.toNat - '0'.toNat
  else if 'a' ≤ c ∧ c ≤ 'f' then c.toNat - 'a'.toNat + 10
  else if 'A' ≤ c ∧ c ≤ 'F' then c.toNat - 'A'.toNat + 10
  else 0

/-- Numeric value of a two-character hexadecimal checksum token. -/
def tokenVal : List Char → Nat
  | [a, b] => 16 * hexVal a + hexVal b
  | _ => 0

/-! ### Concrete test data -/

/-- A well-formed GPRMC sentence (hemisphere `N`); its checksum token `07`
is the XOR of its payload. -/
def rmcStrN : String :=
  "$GPRMC,123519,A,4807.038,N,01131.000,E,022.4,084.4,230394,003.1,W,A*07"

/-- The same sentence with hemisphere `S`. -/
def rmcStrS : String :=
  "$GPRMC,123519,A,4807.038,S,01131.000,E,022.4,084.4,230394,003.1,W,A*07"

/-- The same sentence with an incorrect checksum token `00`. -/
def rmcStrBad : String :=
  "$GPRMC,123519,A,4807.038,N,01131.000,E,022.4,084.4,230394,003.1,W,A*00"

/-- The same sentence with no `*`-checksum trailer: not a grammar match. -/
def rmcStrNoChk : String :=
  "$GPRMC,123519,A,4807.038,N,01131.000,E,022.4,084.4,230394,003.1,W,A"

/-- A GPRMC sentence with a fractional-seconds group `77`. -/
def rmcStrFrac : String :=
  "$GPRMC,123519.77,A,4807.038,N,01131.000,E,022.4,084.4,230394,003.1,W,A*29"

/-- A well-formed GPGGA sentence. -/
def ggaStr : String :=
  "$GPGGA,123519,4807.038,N,01131.000,E,1,08,0.9,545.4,M,46.9,M,,*47"

def exRMC_N : List Char := rmcStrN.toList
def exRMC_S : List Char := rmcStrS.toList
def exRMC_Bad : List Char := rmcStrBad.toList
def exRMC_NoChk : List Char := rmcStrNoChk.toList
def exRMC_Frac : List Char := rmcStrFrac.toList
def exGGA : List Char := ggaStr.toList

/-- The captures of the GPRMC pattern on `exRMC_N`. -/
def capsN : GPRMCCaps :=
  ⟨⟨"123519".toList, [], some 'A', "4807.038".toList, some 'N',
    "01131.000".toList, some 'E', "022.4".toList, "084.4".toList,
    "230394".toList, "003.1".toList, some 'W', some 'A'⟩, ['0', '7']⟩

/-- The captures of the GPRMC pattern on `exRMC_S`. -/
def capsS : GPRMCCaps :=
  ⟨⟨"123519".toList, [], some 'A', "4807.038".toList, some 'S',
    "01131.000".toList, some 'E', "022.4".toList, "084.4".toList,
    "230394".toList, "003.1".toList, some 'W', some 'A'⟩, ['0', '7']⟩

/-- A GPRMC record with recognizable nonzero field values, to observe which
fields a decode pass leaves untouched. -/
def rmcRecX : GPRMC := { GPRMC.zero with updated_ms := 7, utc_s_frac := 5 }

/-- A GPGGA record with recognizable nonzero `lat`/`lon`, to observe that
GPS_Process_GPGGA never assigns them. -/
def ggaRecX : GPGGA :=
  { updated_ms := 0, utc_h := 0, utc_m := 0, utc_s := 0, utc_us := 0
    lat := 3, lon := 4, quality := 0, num_sats := 0, hdop := 0
    alt := 0, alt_unit := Char.ofNat 0, geo := 0, geo_unit := Char.ofNat 0
    aoc := 0, station := List.replicate 4 (Char.ofNat 0)
    check := [Char.ofNat 0, Char.ofNat 0] }

/-- A 512-byte buffer array holding the bytes of `str` followed by zeros. -/
def mkBuf (str : String) : List Nat :=
  str.toList.map Char.toNat ++ List.replicate (GPS_BUFFER_SIZE - str.length) 0

/-- A reachable-shape state whose buffer holds one byte `x` (matching no
sentence grammar), far from capacity. -/
def sFail : GPS :=
  { buffer := { updated_ms := 100, chars := mkBuf "x", char_interrupt := 0
                next_index := 1 }
    gprmc := rmcRecX }

/-- A reachable-shape state whose buffer holds the full sentence `rmcStrN`,
with the buffer timestamp equal to the processing time (zero idle time). -/
def sMatch : GPS :=
  { buffer := { updated_ms := 100, chars := mkBuf rmcStrN
                char_interrupt := 0, next_index := rmcStrN.length }
    gprmc := rmcRecX }

/-! ### Helper lemmas -/

theorem gprmc_match_eq (s : List Char) (rec : GPRMC) (ms : Nat)
    (c : GPRMCCaps) (h : findGPRMC s = some c) :
    GPS_Process_GPRMC s rec ms = (mkGPRMCRecord c rec ms, 0) := by
  unfold GPS_Process_GPRMC
  rw [h]

theorem gprmc_nomatch_eq (s : List Char) (rec : GPRMC) (ms : Nat)
    (h : findGPRMC s = none) :
    GPS_Process_GPRMC s rec ms = (rec, 1) := by
  unfold GPS_Process_GPRMC
  rw [h]

theorem gpgga_match_eq (s : List Char) (gg : GPGGA) (gm : GPRMC) (ms : Nat)
    (c : GPGGACaps) (h : findGPGGA s = some c) :
    GPS_Process_GPGGA s gg gm ms
      = ((mkGPGGARecord c gg gm ms).1, (mkGPGGARecord c gg gm ms).2, 0) := by
  unfold GPS_Process_GPGGA
  rw [h]

theorem ratTrunc_eq_floor (x : ℚ) (h : 0 ≤ x) : ratTrunc x = ⌊x⌋ := by
  unfold ratTrunc
  rw [if_pos (Rat.num_nonneg.mpr h), Rat.floor_def', ← Rat.floor_def]

/-- Value of `atoffPos` on a text whose digit spans are known. -/
theorem atoffPos_eq (s d1 d2 r2 rest : List Char)
    (h1 : spanDigits s = (d1, '.' :: r2)) (h2 : spanDigits r2 = (d2, rest)) :
    atoffPos s = (digitsToNat d1 : ℚ) + (digitsToNat d2 : ℚ) / (10 ^ d2.length) := by
  simp only [atoffPos, h1, h2]

theorem atoff_4807038 : atoff "4807.038".toList = 4807038 / 1000 := by
  have h0 : atoff "4807.038".toList = atoffPos "4807.038".toList := rfl
  rw [h0, atoffPos_eq _ "4807".toList "038".toList "038".toList []
    (by decide) (by decide)]
  have hd1 : digitsToNat "4807".toList = 4807 := by decide
  have hd2 : digitsToNat "038".toList = 38 := by decide
  have hl : ("038".toList).length = 3 := by decide
  rw [hd1, hd2, hl]
  norm_num

/-- The floor form of the conversion for nonnegative inputs. -/
theorem convertDegMinToDecDeg_nonneg (v : ℚ) (hv : 0 ≤ v) (neg : Bool) :
    convertDegMinToDecDeg v neg
      = (if neg then -1 else 1)
          * ((⌊v / 100⌋ : ℚ) + (v - 100 * (⌊v / 100⌋ : ℚ)) / 60) := by
  have h100 : (0:ℚ) ≤ v / 100 := by positivity
  unfold convertDegMinToDecDeg fmodQ
  rw [ratTrunc_eq_floor _ h100]
  cases neg <;> simp

theorem floor_48 : (⌊(4807038 / 1000 : ℚ) / 100⌋ : ℤ) = 48 := by
  rw [Int.floor_eq_iff]
  constructor <;> norm_num

theorem convert_4807038_pos :
    convertDegMinToDecDeg (4807038 / 1000 : ℚ) false = 481173 / 10000 := by
  rw [convertDegMinToDecDeg_nonneg _ (by norm_num) false, floor_48]
  norm_num

theorem convert_4807038_neg :
    convertDegMinToDecDeg (4807038 / 1000 : ℚ) true = -(481173 / 10000) := by
  rw [convertDegMinToDecDeg_nonneg _ (by norm_num) true, floor_48]
  norm_num

theorem getD_set_self (l : List Nat) (i : Nat) (a : Nat) (h : i < l.length) :
    (l.set i a).getD i 0 = a := by
  rw [List.getD_eq_getElem?_getD, List.getElem?_set_self h]
  rfl

theorem getD_set_ne (l : List Nat) (i j : Nat) (a : Nat) (h : i ≠ j) :
    (l.set i a).getD j 0 = l.getD j 0 := by
  rw [List.getD_eq_getElem?_getD, List.getElem?_set_ne h,
    ← List.getD_eq_getElem?_getD]

theorem getD_replicate_zero (n i : Nat) :
    (List.replicate n (0 : Nat)).getD i 0 = 0 := by
  induction n generalizing i with
  | zero => rfl
  | succ n ih =>
    cases i with
    | zero => rfl
    | succ i => simpa [List.replicate_succ] using ih i

/-- The length of the C string in a buffer whose first `n` cells are
nonzero and whose cell `n` is zero (or which ends at `n`). -/
theorem takeWhile_bne_length (l : List Nat) (n : Nat) (hn : n ≤ l.length)
    (h1 : ∀ i, i < n → l.getD i 0 ≠ 0) (h2 : l.getD n 0 = 0) :
    (l.takeWhile (fun b => b != 0)).length = n := by
  induction l generalizing n with
  | nil =>
    have hn0 : n = 0 := by simpa using hn
    subst hn0
    rfl
  | cons x xs ih =>
    cases n with
    | zero =>
      have hx : x = 0 := h2
      simp [List.takeWhile_cons, hx]
    | succ n =>
      have hx : x ≠ 0 := h1 0 (Nat.succ_pos n)
      have hx' : (x != 0) = true := by simp [hx]
      simp only [List.takeWhile_cons, hx', if_true, List.length_cons,
        Nat.succ_inj]
      exact ih n (by simpa using hn)
        (fun i hi => by simpa using h1 (i + 1) (Nat.succ_lt_succ hi))
        (by simpa using h2)

/-- The buffer invariant: full-capacity array, bounded cursor, nonzero
bytes strictly below the cursor, zero bytes from the cursor on. -/
def BufInv (s : GPS) : Prop :=
  s.buffer.chars.length = GPS_BUFFER_SIZE
  ∧ s.buffer.next_index ≤ GPS_BUFFER_SIZE - 1
  ∧ (∀ i, i < s.buffer.next_index → s.buffer.chars.getD i 0 ≠ 0)
  ∧ (∀ i, s.buffer.next_index ≤ i → i < GPS_BUFFER_SIZE →
       s.buffer.chars.getD i 0 = 0)

/-- Any state with a zeroed char array and cursor zero satisfies the
buffer invariant. -/
theorem bufInv_cleared (g : GPS)
    (hc : g.buffer.chars = List.replicate GPS_BUFFER_SIZE 0)
    (hn : g.buffer.next_index = 0) : BufInv g := by
  refine ⟨by rw [hc, List.length_replicate], by rw [hn]; exact Nat.zero_le _,
    ?_, ?_⟩
  · intro i hi
    rw [hn] at hi
    exact absurd hi (Nat.not_lt_zero i)
  · intro i _ _
    rw [hc]
    exact getD_replicate_zero GPS_BUFFER_SIZE i

theorem bufInv_init : BufInv GPS_Init := bufInv_cleared _ rfl rfl

theorem bufInv_callback (tick b : Nat) (s : GPS) (h : BufInv s) :
    BufInv (GPS_CallBack tick b s) := by
  obtain ⟨hlen, hle, hlo, hhi⟩ := h
  have hB : GPS_BUFFER_SIZE = 512 := rfl
  unfold GPS_CallBack
  dsimp only
  split_ifs with hc
  · obtain ⟨hb, hlt⟩ := hc
    refine ⟨?_, ?_, ?_, ?_⟩
    · show (s.buffer.chars.set s.buffer.next_index (b % 256)).length
        = GPS_BUFFER_SIZE
      rw [List.length_set]
      exact hlen
    · show s.buffer.next_index + 1 ≤ GPS_BUFFER_SIZE - 1
      omega
    · show ∀ i, i < s.buffer.next_index + 1 →
        (s.buffer.chars.set s.buffer.next_index (b % 256)).getD i 0 ≠ 0
      intro i hi
      rcases Nat.lt_succ_iff_lt_or_eq.mp hi with hi' | hi'
      · rw [getD_set_ne _ _ _ _ (by omega)]
        exact hlo i hi'
      · subst hi'
        rw [getD_set_self _ _ _ (by omega)]
        exact hb
    · show ∀ i, s.buffer.next_index + 1 ≤ i → i < GPS_BUFFER_SIZE →
        (s.buffer.chars.set s.buffer.next_index (b % 256)).getD i 0 = 0
      intro i hi hi'
      rw [getD_set_ne _ _ _ _ (by omega)]
      exact hhi i (by omega) hi'
  · exact ⟨hlen, hle, hlo, hhi⟩

theorem bufInv_process (ms : Nat) (s : GPS) (h : BufInv s) :
    BufInv (GPS_Process ms s) := by
  obtain ⟨hlen, hle, hlo, hhi⟩ := h
  unfold GPS_Process
  dsimp only
  split_ifs with h1 h2 <;>
    first
      | exact bufInv_cleared _ rfl rfl
      | exact ⟨hlen, hle, hlo, hhi⟩

theorem reach_bufInv (s : GPS) (h : Reachable s) : BufInv s := by
  induction h with
  | init => exact bufInv_init
  | callback tick b _ ih => exact bufInv_callback tick b _ ih
  | process ms _ ih => exact bufInv_process ms _ ih

/-! ### Claim theorems -/

/-- C2: convertDegMinToDecDeg turns a degrees-minutes value v into the
integer part of v/100 plus (v mod 100, real modulo) divided by 60, negated
exactly when the negate flag is set; the GPRMC decoder drives that flag
from the paired hemisphere capture (latitude negated exactly on 'S',
longitude exactly on 'W'; 'N', 'E' or an absent code leaves it positive),
and latitude field 4807.038 decodes to 48.1173 with hemisphere N and to
-48.1173 with hemisphere S. -/
theorem C2_degmin_conversion :
    (∀ v : ℚ, 0 ≤ v → ∀ neg : Bool,
        convertDegMinToDecDeg v neg
          = (if neg then -1 else 1)
              * ((⌊v / 100⌋ : ℚ) + (v - 100 * (⌊v / 100⌋ : ℚ)) / 60))
    ∧ (∀ s rec ms c, findGPRMC s = some c →
        (GPS_Process_GPRMC s rec ms).1.lat
            = convertDegMinToDecDeg (atoff c.body.lat)
                (c.body.latNS.getD ',' == 'S')
          ∧ (GPS_Process_GPRMC s rec ms).1.lon
            = convertDegMinToDecDeg (atoff c.body.lon)
                (c.body.lonEW.getD ',' == 'W'))
    ∧ (GPS_Process_GPRMC exRMC_N GPRMC.zero 5).1.lat = 481173 / 10000
    ∧ (GPS_Process_GPRMC exRMC_S GPRMC.zero 5).1.lat = -(481173 / 10000) := by
  refine ⟨convertDegMinToDecDeg_nonneg, ?_, ?_, ?_⟩
  · intro s rec ms c h
    rw [gprmc_match_eq s rec ms c h]
    exact ⟨rfl, rfl⟩
  · rw [gprmc_match_eq exRMC_N GPRMC.zero 5 capsN (by decide)]
    have hb : (capsN.body.latNS.getD ',' == 'S') = false := by decide
    have h1 : (mkGPRMCRecord capsN GPRMC.zero 5, 0).1.lat
        = convertDegMinToDecDeg (atoff "4807.038".toList) false := by
      show convertDegMinToDecDeg (atoff capsN.body.lat)
        (capsN.body.latNS.getD ',' == 'S') = _
      rw [hb]
      rfl
    rw [h1, atoff_4807038, convert_4807038_pos]
  · rw [gprmc_match_eq exRMC_S GPRMC.zero 5 capsS (by decide)]
    have hb : (capsS.body.latNS.getD ',' == 'S') = true := by decide
    have h1 : (mkGPRMCRecord capsS GPRMC.zero 5, 0).1.lat
        = convertDegMinToDecDeg (atoff "4807.038".toList) true := by
      show convertDegMinToDecDeg (atoff capsS.body.lat)
        (capsS.body.latNS.getD ',' == 'S') = _
      rw [hb]
      rfl
    rw [h1, atoff_4807038, convert_4807038_neg]

theorem C2_degmin_conversion_witness :
    (0 ≤ (4807038 / 1000 : ℚ)
      ∧ convertDegMinToDecDeg (4807038 / 1000 : ℚ) true
          = (if (true : Bool) then -1 else 1)
              * ((⌊(4807038 / 1000 : ℚ) / 100⌋ : ℚ)
                  + ((4807038 / 1000 : ℚ)
                      - 100 * (⌊(4807038 / 1000 : ℚ) / 100⌋ : ℚ)) / 60))
    ∧ (findGPRMC exRMC_N = some capsN
      ∧ (GPS_Process_GPRMC exRMC_N GPRMC.zero 5).1.lat
          = convertDegMinToDecDeg (atoff capsN.body.lat)
              (capsN.body.latNS.getD ',' == 'S')) :=
  ⟨⟨by norm_num, C2_degmin_conversion.1 _ (by norm_num) true⟩,
   ⟨by decide,
    (C2_degmin_conversion.2.1 exRMC_N GPRMC.zero 5 capsN (by decide)).1⟩⟩

/-- C5: a buffer that does not match the GPRMC grammar (no tag occurrence
followed by the full field list and the starred two-character checksum
token) makes GPS_Process_GPRMC return the nonzero regexec result and leave
the record — every field and the last-updated timestamp — exactly as it
was; fields are written only on a whole-sentence match. -/
theorem C5_nomatch_preserves_record (s : List Char) (rec : GPRMC) (ms : Nat)
    (h : findGPRMC s = none) :
    GPS_Process_GPRMC s rec ms = (rec, 1) :=
  gprmc_nomatch_eq s rec ms h

theorem C5_nomatch_preserves_record_witness :
    findGPRMC exRMC_NoChk = none
      ∧ GPS_Process_GPRMC exRMC_NoChk rmcRecX 9 = (rmcRecX, 1) :=
  ⟨by decide, C5_nomatch_preserves_record exRMC_NoChk rmcRecX 9 (by decide)⟩

/-- C6: on every successful GPRMC decode the combined ddmmyy date value d
is split as day = d/10000 mod 100 and month = d/100 mod 100, and the
two-digit year d mod 100 is normalized by the fixed offset +2000; the date
field 230394 hence gives day 23, month 3, year 2094. -/
theorem C6_date_split :
    (∀ s rec ms c, findGPRMC s = some c →
        (GPS_Process_GPRMC s rec ms).1.utc_day
            = atoll c.body.date / 10000 % 100
          ∧ (GPS_Process_GPRMC s rec ms).1.utc_mon
            = atoll c.body.date / 100 % 100
          ∧ (GPS_Process_GPRMC s rec ms).1.utc_year
            = atoll c.body.date % 100 + 2000)
    ∧ (GPS_Process_GPRMC exRMC_N GPRMC.zero 5).1.utc_day = 23
    ∧ (GPS_Process_GPRMC exRMC_N GPRMC.zero 5).1.utc_mon = 3
    ∧ (GPS_Process_GPRMC exRMC_N GPRMC.zero 5).1.utc_year = 2094 := by
  refine ⟨?_, by decide, by decide, by decide⟩
  intro s rec ms c h
  rw [gprmc_match_eq s rec ms c h]
  refine ⟨rfl, rfl, ?_⟩
  show atoll c.body.date / 1 % 100 + 2000 = atoll c.body.date % 100 + 2000
  rw [Nat.div_one]

theorem C6_date_split_witness :
    findGPRMC exRMC_N = some capsN
      ∧ (GPS_Process_GPRMC exRMC_N GPRMC.zero 5).1.utc_day
          = atoll capsN.body.date / 10000 % 100 :=
  ⟨by decide, (C6_date_split.1 exRMC_N GPRMC.zero 5 capsN (by decide)).1⟩

/-- The payload of `rmcStrN` between `$` and `*`. -/
def payloadN : List Char :=
  "GPRMC,123519,A,4807.038,N,01131.000,E,022.4,084.4,230394,003.1,W,A".toList

/-- The captures of the GPRMC pattern on `exRMC_Bad`: the same body as
`capsN`, with the incorrect checksum token. -/
def capsBad : GPRMCCaps := ⟨capsN.body, ['0', '0']⟩

/-- The captures of the GPGGA pattern on `exGGA`. -/
def capsGGA : GPGGACaps :=
  ⟨⟨"123519".toList, [], "4807.038".toList, some 'N', "01131.000".toList,
    some 'E', some '1', "08".toList, "0.9".toList, "545.4".toList,
    some 'M', "46.9".toList, some 'M', [], []⟩, ['4', '7']⟩

/-- C8: the claim requires the fractional-seconds capture to land in
utc_s_frac; the code instead assigns it to speed_kt (src/GPS.c line 335),
never writes utc_s_frac, and later overwrites speed_kt with the speed
field.  On the failing input, the capture is 77, the decode succeeds, and
utc_s_frac still holds its prior value 5; structurally, no successful
decode ever changes utc_s_frac, and the final speed_kt is the speed
capture. -/
theorem C8_frac_seconds_not_stored :
    (findGPRMC exRMC_Frac).map (fun c => c.body.frac) = some ['7', '7']
    ∧ (GPS_Process_GPRMC exRMC_Frac rmcRecX 9).2 = 0
    ∧ (GPS_Process_GPRMC exRMC_Frac rmcRecX 9).1.utc_s_frac
        = rmcRecX.utc_s_frac
    ∧ rmcRecX.utc_s_frac = 5
    ∧ (5 : Nat) ≠ 77
    ∧ (∀ c old ms, (mkGPRMCRecord c old ms).utc_s_frac = old.utc_s_frac)
    ∧ (∀ c old ms, (mkGPRMCRecord c old ms).speed_kt = atoff c.body.speed) :=
  ⟨by decide, by decide, by decide, rfl, by decide,
   fun c old ms => rfl, fun c old ms => rfl⟩

/-- C9: a grammar match succeeds whatever the two alphanumeric characters
of the checksum token are — the decoder never computes or compares the XOR
checksum: on success the token is copied verbatim into the check field and
every other field of the record depends only on the thirteen body
captures; concretely, the sentence with the correct token 07 and the same
sentence with the wrong token 00 both decode, producing records that agree
except for the copied token. -/
theorem C9_checksum_not_verified :
    (∀ s rec ms c, findGPRMC s = some c →
        (GPS_Process_GPRMC s rec ms).2 = 0
        ∧ (GPS_Process_GPRMC s rec ms).1.check = memcpyList rec.check c.check)
    ∧ (∀ b k1 k2 old ms,
        mkGPRMCRecord ⟨b, k1⟩ old ms
          = { mkGPRMCRecord ⟨b, k2⟩ old ms with
              check := memcpyList old.check k1 })
    ∧ (∀ s b rest c1 c2 r', parseGPRMCBody s = some (b, rest) →
        rest = '*' :: c1 :: c2 :: r' →
        (parseGPRMCAt s = some ⟨b, [c1, c2]⟩
          ↔ (c1.isAlphanum ∧ c2.isAlphanum)))
    ∧ exRMC_N = '$' :: (payloadN ++ '*' :: '0' :: '7' :: [])
    ∧ findGPRMC exRMC_N = some capsN
    ∧ findGPRMC exRMC_Bad = some capsBad
    ∧ (GPS_Process_GPRMC exRMC_N GPRMC.zero 4).2 = 0
    ∧ (GPS_Process_GPRMC exRMC_Bad GPRMC.zero 4).2 = 0
    ∧ (GPS_Process_GPRMC exRMC_N GPRMC.zero 4).1
        = { (GPS_Process_GPRMC exRMC_Bad GPRMC.zero 4).1 with
            check := ['0', '7'] }
    ∧ tokenVal ['0', '7'] = nmeaChecksum payloadN
    ∧ tokenVal ['0', '0'] ≠ nmeaChecksum payloadN := by
  refine ⟨?_, ?_, ?_, by decide, by decide, by decide, by decide, by decide,
    ?_, by decide, by decide⟩
  · intro s rec ms c h
    rw [gprmc_match_eq s rec ms c h]
    exact ⟨rfl, rfl⟩
  · intro b k1 k2 old ms
    rfl
  · intro s b rest c1 c2 r' h hrest
    subst hrest
    unfold parseGPRMCAt
    rw [h]
    show (if c1.isAlphanum && c2.isAlphanum
          then some (⟨b, [c1, c2]⟩ : GPRMCCaps) else none)
        = some ⟨b, [c1, c2]⟩ ↔ (c1.isAlphanum ∧ c2.isAlphanum)
    by_cases h1 : c1.isAlphanum <;> by_cases h2 : c2.isAlphanum <;>
      simp [h1, h2]
  · rw [gprmc_match_eq exRMC_N GPRMC.zero 4 capsN (by decide),
        gprmc_match_eq exRMC_Bad GPRMC.zero 4 capsBad (by decide)]
    rfl

theorem C9_checksum_not_verified_witness :
    (findGPRMC exRMC_N = some capsN
      ∧ (GPS_Process_GPRMC exRMC_N GPRMC.zero 4).2 = 0)
    ∧ (parseGPRMCBody (List.drop 7 exRMC_N)
          = some (capsN.body, ['*', '0', '7'])
      ∧ (parseGPRMCAt (List.drop 7 exRMC_N) = some ⟨capsN.body, ['0', '7']⟩
          ↔ (Char.isAlphanum '0' ∧ Char.isAlphanum '7'))) :=
  ⟨⟨by decide,
    (C9_checksum_not_verified.1 exRMC_N GPRMC.zero 4 capsN (by decide)).1⟩,
   ⟨by decide,
    C9_checksum_not_verified.2.2.1 (List.drop 7 exRMC_N) capsN.body
      ['*', '0', '7'] '0' '7' [] (by decide) rfl⟩⟩

/-- C4: the claim requires each decoder to write only its own record, but
GPS_Process_GPGGA stores the converted latitude/longitude and their
validity flags into the GPRMC record (src/GPS.c lines 235-249, through the
identifier gprmc, undeclared in that function) and never assigns the GPGGA
record's own lat/lon.  On the failing input the GPGGA decode succeeds,
rewrites the GPRMC record's lat from 0 to 48.1173, and leaves the GPGGA
record's lat/lon at their prior values. -/
theorem C4_gpgga_writes_gprmc_record :
    (∀ c g m ms,
        (mkGPGGARecord c g m ms).2.lat
            = convertDegMinToDecDeg (atoff c.body.lat)
                (c.body.latNS.getD ',' == 'S')
        ∧ (mkGPGGARecord c g m ms).2.lon
            = convertDegMinToDecDeg (atoff c.body.lon)
                (c.body.lonEW.getD ',' == 'W')
        ∧ (mkGPGGARecord c g m ms).1.lat = g.lat
        ∧ (mkGPGGARecord c g m ms).1.lon = g.lon)
    ∧ (GPS_Process_GPGGA exGGA ggaRecX rmcRecX 9).2.2 = 0
    ∧ (GPS_Process_GPGGA exGGA ggaRecX rmcRecX 9).2.1.lat = 481173 / 10000
    ∧ rmcRecX.lat = 0
    ∧ (481173 / 10000 : ℚ) ≠ 0
    ∧ (GPS_Process_GPGGA exGGA ggaRecX rmcRecX 9).1.lat = ggaRecX.lat
    ∧ ggaRecX.lat = 3 := by
  refine ⟨fun c g m ms => ⟨rfl, rfl, rfl, rfl⟩, by decide, ?_, rfl,
    by norm_num, ?_, rfl⟩
  · rw [gpgga_match_eq exGGA ggaRecX rmcRecX 9 capsGGA (by decide)]
    have hb : (capsGGA.body.latNS.getD ',' == 'S') = false := by decide
    have h1 : (mkGPGGARecord capsGGA ggaRecX rmcRecX 9).2.lat
        = convertDegMinToDecDeg (atoff "4807.038".toList) false := by
      show convertDegMinToDecDeg (atoff capsGGA.body.lat)
        (capsGGA.body.latNS.getD ',' == 'S') = _
      rw [hb]
      rfl
    rw [h1, atoff_4807038, convert_4807038_pos]
  · rw [gpgga_match_eq exGGA ggaRecX rmcRecX 9 capsGGA (by decide)]
    rfl

/-- C3: every GPS_CallBack call stamps the buffer's last-modified
timestamp; the byte is stored at the write cursor and the cursor advanced
exactly when the received uint8 value is not the null terminator and the
cursor is below capacity - 1; otherwise the stored bytes and the cursor
are unchanged (the byte is dropped); and in every reachable state the
write cursor never exceeds capacity - 1. -/
theorem C3_callback_ingest :
    (∀ s tick b,
        (GPS_CallBack tick b s).buffer.updated_ms = tick
        ∧ (b % 256 ≠ 0 ∧ s.buffer.next_index < GPS_BUFFER_SIZE - 1 →
            (GPS_CallBack tick b s).buffer.chars
                = s.buffer.chars.set s.buffer.next_index (b % 256)
            ∧ (GPS_CallBack tick b s).buffer.next_index
                = s.buffer.next_index + 1)
        ∧ (¬(b % 256 ≠ 0 ∧ s.buffer.next_index < GPS_BUFFER_SIZE - 1) →
            (GPS_CallBack tick b s).buffer.chars = s.buffer.chars
            ∧ (GPS_CallBack tick b s).buffer.next_index
                = s.buffer.next_index)
        ∧ (GPS_CallBack tick b s).gprmc = s.gprmc)
    ∧ (∀ s, Reachable s → s.buffer.next_index ≤ GPS_BUFFER_SIZE - 1) := by
  constructor
  · intro s tick b
    unfold GPS_CallBack
    dsimp only
    split_ifs with hc
    · exact ⟨rfl, fun _ => ⟨rfl, rfl⟩, fun h => absurd hc h, rfl⟩
    · exact ⟨rfl, fun h => absurd h hc, fun _ => ⟨rfl, rfl⟩, rfl⟩
  · exact fun s h => (reach_bufInv s h).2.1

theorem C3_callback_ingest_witness :
    (GPS_CallBack 3 65 GPS_Init).buffer.updated_ms = 3
    ∧ ((65 % 256 ≠ 0 ∧ GPS_Init.buffer.next_index < GPS_BUFFER_SIZE - 1)
      ∧ (GPS_CallBack 3 65 GPS_Init).buffer.next_index
          = GPS_Init.buffer.next_index + 1)
    ∧ (Reachable GPS_Init
      ∧ GPS_Init.buffer.next_index ≤ GPS_BUFFER_SIZE - 1) :=
  ⟨(C3_callback_ingest.1 GPS_Init 3 65).1,
   ⟨by decide, ((C3_callback_ingest.1 GPS_Init 3 65).2.1 (by decide)).2⟩,
   ⟨Reachable.init, C3_callback_ingest.2 GPS_Init Reachable.init⟩⟩

/-- C10: in every reachable state, every stored byte below the write
cursor is nonzero, every cell from the cursor on (the final cell at
capacity - 1 included) is zero, and the buffer therefore reads as a
null-terminated C string whose length equals the write cursor — the form
the decoders scan. -/
theorem C10_buffer_is_cstring (s : GPS) (h : Reachable s) :
    (∀ i, i < s.buffer.next_index → s.buffer.chars.getD i 0 ≠ 0)
    ∧ (∀ i, s.buffer.next_index ≤ i → i < GPS_BUFFER_SIZE →
        s.buffer.chars.getD i 0 = 0)
    ∧ s.buffer.chars.getD (GPS_BUFFER_SIZE - 1) 0 = 0
    ∧ (cString s.buffer.chars).length = s.buffer.next_index := by
  obtain ⟨hlen, hle, hlo, hhi⟩ := reach_bufInv s h
  have hB : GPS_BUFFER_SIZE = 512 := rfl
  refine ⟨hlo, hhi, hhi _ hle (by omega), ?_⟩
  unfold cString
  rw [List.length_map]
  exact takeWhile_bne_length _ _ (by omega) hlo
    (hhi _ (Nat.le_refl _) (by omega))

theorem C10_buffer_is_cstring_witness :
    Reachable GPS_Init
    ∧ (cString GPS_Init.buffer.chars).length = GPS_Init.buffer.next_index :=
  ⟨Reachable.init, (C10_buffer_is_cstring GPS_Init Reachable.init).2.2.2⟩

set_option maxRecDepth 8192 in
/-- C1 counterexample: the state `sFail` holds one byte (below capacity),
the only enabled decoder fails on it, yet GPS_Process preserves the buffer
— the claim requires a clear whenever every enabled decoder fails. -/
theorem C1_clear_policy_cex :
    0 < sFail.buffer.next_index
    ∧ ¬(GPS_BUFFER_SIZE - 1 ≤ sFail.buffer.next_index)
    ∧ (GPS_Process_GPRMC (cString sFail.buffer.chars) sFail.gprmc 100).2 ≠ 0
    ∧ (GPS_Process 100 sFail).buffer.next_index = sFail.buffer.next_index
    ∧ (GPS_Process 100 sFail).buffer.chars = sFail.buffer.chars :=
  ⟨by decide, by decide, by decide, by decide, by decide⟩

/-- C1 (amended): for a non-empty buffer, GPS_Process clears the buffer
exactly when it was at/over capacity or the (only enabled) GPRMC decoder
succeeded; when the buffer is below capacity and the decoder failed, the
contents, the cursor and the buffer timestamp are preserved for this
pass. -/
theorem C1_clear_policy (s : GPS) (ms : Nat) (h : 0 < s.buffer.next_index) :
    ((GPS_BUFFER_SIZE - 1 ≤ s.buffer.next_index
        ∨ (GPS_Process_GPRMC (cString s.buffer.chars) s.gprmc ms).2 = 0) →
      (GPS_Process ms s).buffer.chars = List.replicate GPS_BUFFER_SIZE 0
      ∧ (GPS_Process ms s).buffer.next_index = 0
      ∧ (GPS_Process ms s).buffer.updated_ms = ms)
    ∧ (¬(GPS_BUFFER_SIZE - 1 ≤ s.buffer.next_index
          ∨ (GPS_Process_GPRMC (cString s.buffer.chars) s.gprmc ms).2 = 0) →
      (GPS_Process ms s).buffer.chars = s.buffer.chars
      ∧ (GPS_Process ms s).buffer.next_index = s.buffer.next_index
      ∧ (GPS_Process ms s).buffer.updated_ms = s.buffer.updated_ms) := by
  unfold GPS_Process
  dsimp only
  constructor
  · intro hc
    have hm : GPS_BUFFER_SIZE - 1 ≤ s.buffer.next_index ∨
        (0 < s.buffer.next_index ∧
          (GPS_Process_GPRMC (cString s.buffer.chars) s.gprmc ms).2 = 0) := by
      rcases hc with hc | hc
      · exact Or.inl hc
      · exact Or.inr ⟨h, hc⟩
    rw [if_pos hm]
    exact ⟨rfl, rfl, rfl⟩
  · intro hc
    have hm : ¬(GPS_BUFFER_SIZE - 1 ≤ s.buffer.next_index ∨
        (0 < s.buffer.next_index ∧
          (GPS_Process_GPRMC (cString s.buffer.chars) s.gprmc ms).2 = 0)) := by
      intro contra
      rcases contra with hfull | ⟨_, hres⟩
      · exact hc (Or.inl hfull)
      · exact hc (Or.inr hres)
    rw [if_neg hm, if_pos h]
    exact ⟨rfl, rfl, rfl⟩

theorem C1_clear_policy_witness :
    0 < sFail.buffer.next_index
    ∧ ¬(GPS_BUFFER_SIZE - 1 ≤ sFail.buffer.next_index
        ∨ (GPS_Process_GPRMC (cString sFail.buffer.chars) sFail.gprmc 100).2
            = 0)
    ∧ ((GPS_Process 100 sFail).buffer.chars = sFail.buffer.chars
      ∧ (GPS_Process 100 sFail).buffer.next_index = sFail.buffer.next_index
      ∧ (GPS_Process 100 sFail).buffer.updated_ms
          = sFail.buffer.updated_ms) :=
  ⟨by decide, by decide, (C1_clear_policy sFail 100 (by decide)).2 (by decide)⟩

/-- C7 counterexample: in the state `sMatch` no time has elapsed since the
last byte (0 ms, below GPS_MS_BEFORE_CHECK), yet GPS_Process runs the
decoder: the GPRMC record's timestamp is rewritten from 7 to 100 and the
buffer is cleared — the claim requires that nothing be modified. -/
theorem C7_idle_gating_cex :
    100 - sMatch.buffer.updated_ms < GPS_MS_BEFORE_CHECK
    ∧ 0 < sMatch.buffer.next_index
    ∧ (GPS_Process 100 sMatch).gprmc.updated_ms = 100
    ∧ sMatch.gprmc.updated_ms = 7
    ∧ (GPS_Process 100 sMatch).buffer.next_index
        ≠ sMatch.buffer.next_index :=
  ⟨by decide, by decide, by decide, rfl, by decide⟩

/-- C7 (amended): GPS_Process performs no idle-time gating: whenever the
buffer is non-empty — even when fewer than GPS_MS_BEFORE_CHECK
milliseconds have elapsed since the buffer's last-modified timestamp —
the GPRMC decoder runs on the buffer string and its output record is
stored; the GPS_MS_BEFORE_CHECK constant is never consulted by this
module. -/
theorem C7_no_idle_gating (s : GPS) (ms : Nat)
    (hidle : ms - s.buffer.updated_ms < GPS_MS_BEFORE_CHECK)
    (hdata : 0 < s.buffer.next_index) :
    (GPS_Process ms s).gprmc
      = (GPS_Process_GPRMC (cString s.buffer.chars) s.gprmc ms).1 := by
  unfold GPS_Process
  dsimp only
  simp only [if_pos hdata]
  split_ifs with hm
  · rfl
  · rfl

theorem C7_no_idle_gating_witness :
    (100 - sMatch.buffer.updated_ms < GPS_MS_BEFORE_CHECK
      ∧ 0 < sMatch.buffer.next_index)
    ∧ (GPS_Process 100 sMatch).gprmc
        = (GPS_Process_GPRMC (cString sMatch.buffer.chars) sMatch.gprmc
            100).1 :=
  ⟨⟨by decide, by decide⟩,
   C7_no_idle_gating sMatch 100 (by decide) (by decide)⟩
